import Mathlib

/-!
Verification of the authentication security core of the `it302-mco`
("Brews & Chews") storefront: the sliding-window IP rate limiter, the
per-account lockout state machine, the audit event log, and the
deterministic email digest, as implemented in `accounts/views.py`,
`accounts/models.py`, `accounts/forms.py` and `accounts/encryption.py`.

Modelling choices:
* Time is modelled as integer seconds (`Int`); Django `timedelta` values
  become their total seconds.  All `timezone.now()` calls inside a single
  request observe the same instant `now`.
* Python strings are modelled as lists of character code points
  (`Str := List Nat`); `str.lower` / `str.upper` / `str.strip` are modelled
  at the ASCII level, and `str.encode("utf-8")` as the identity on code
  points (exact on ASCII input).
* The database is explicit state: the event table is a `Store` (a list of
  events plus a failure flag modelling `DatabaseError`), the user table a
  `List User`; the Django `Model.save` becomes functional record update
  plus replacement in the list.
-/

/-- Python strings modelled as lists of character code points. -/
abbrev Str := List Nat

/-- Code points of a Lean string literal, for writing concrete `Str` values. -/
def strBytes (s : String) : Str :=
  s.data.map Char.toNat

/-- ASCII model of Python `str.lower` on a single code point. -/
def asciiLowerChar (c : Nat) : Nat :=
  if 65 ≤ c ∧ c ≤ 90 then c + 32 else c

/-- ASCII upper-case mapping of a single code point (the single-character
part of the Python `str.upper` table). -/
def asciiUpperChar (c : Nat) : Nat :=
  if 97 ≤ c ∧ c ≤ 122 then c - 32 else c

/-- ASCII model of Python `str.lower`. -/
def pyLower (s : Str) : Str :=
  s.map asciiLowerChar

/-- Model of the Python `str.upper` mapping of one code point to a list of
code points.  ASCII a-z map to A-Z; the CPython table also contains expanding
and non-ASCII mappings, of which the points relevant to this development are
included exactly: U+00DF (ß) uppercases to SS, and U+00B5 (µ) to U+039C (Μ);
remaining code points are kept unchanged (a partial table, exact on ASCII and
on these points). -/
def pyUpperChar (c : Nat) : List Nat :=
  if 97 ≤ c ∧ c ≤ 122 then [c - 32]
  else if c = 223 then [83, 83]
  else if c = 181 then [924]
  else [c]

/-- Model of Python `str.upper`: concatenation of the per-code-point case
mappings. -/
def pyUpper (s : Str) : Str :=
  (s.map pyUpperChar).flatten

/-- ASCII whitespace, as removed by Python `str.strip`. -/
def isPySpace (c : Nat) : Bool :=
  c == 32 || c == 9 || c == 10 || c == 13 || c == 11 || c == 12

/-- ASCII model of Python `str.strip` (removes leading and trailing whitespace). -/
def pyStrip (s : Str) : Str :=
  ((s.dropWhile isPySpace).reverse.dropWhile isPySpace).reverse

/-- Event kinds of `AuthenticationEvent.EventType` from `accounts/models.py`. -/
inductive EventType where
  | signup
  | login
deriving DecidableEq, Repr

/-- One row of the `AuthenticationEvent` audit table (`accounts/models.py`).
`reason` models the `metadata = {"reason": reason}` JSON payload. -/
structure AuthEvent where
  event_type : EventType
  ip_address : Str
  username_submitted : Str
  email_submitted : Str
  user : Option Nat
  successful : Bool
  reason : Option Str
  user_agent : Str
  created_at : Int
deriving DecidableEq, Repr

/-- The `AuthenticationEvent` table together with a flag modelling whether the
storage layer currently raises `DatabaseError` on access. -/
structure Store where
  events : List AuthEvent
  failed : Bool
deriving DecidableEq, Repr

/-- Storage failure `DatabaseError` from `django.db`. -/
inductive DatabaseError where
  | databaseError
deriving DecidableEq, Repr

/-- Rate limiting settings from `accounts/views.py` (timedeltas in seconds). -/
def SIGNUP_RATE_LIMIT : Nat := 5

/-- Window `SIGNUP_RATE_WINDOW = timedelta(hours=1)`. -/
def SIGNUP_RATE_WINDOW : Int := 3600

/-- Limit `LOGIN_RATE_LIMIT = 5`. -/
def LOGIN_RATE_LIMIT : Nat := 5

/-- Window `LOGIN_RATE_WINDOW = timedelta(minutes=15)`. -/
def LOGIN_RATE_WINDOW : Int := 900

/-- Threshold `LOGIN_LOCK_THRESHOLD = 5`. -/
def LOGIN_LOCK_THRESHOLD : Nat := 5

/-- Duration `LOGIN_LOCK_DURATION = timedelta(hours=1)` (60 minutes). -/
def LOGIN_LOCK_DURATION : Int := 3600

/-- The optional `successful=successful` filter applied to the queryset in
`_is_rate_limited` / `_get_rate_limit_reset_time`. -/
def matchesSuccessFilter (successFilter : Option Bool) (e : AuthEvent) : Bool :=
  match successFilter with
  | none => true
  | some b => e.successful == b

/-- The queryset
`AuthenticationEvent.objects.filter(event_type=…, ip_address=…, created_at__gte=cutoff)`
optionally filtered by `successful`. -/
def matchingEvents (events : List AuthEvent) (event_type : EventType)
    (ip_address : Str) (cutoff : Int) (successFilter : Option Bool) : List AuthEvent :=
  events.filter fun e =>
    e.event_type == event_type && e.ip_address == ip_address &&
      cutoff ≤ e.created_at && matchesSuccessFilter successFilter e

/-- Minimum `created_at` among a list of events (the row returned by
`queryset.order_by("created_at").first()`), or `none` on an empty queryset. -/
def oldestCreatedAt : List AuthEvent → Option Int
  | [] => none
  | e :: es =>
    match oldestCreatedAt es with
    | none => some e.created_at
    | some m => some (min e.created_at m)

/-- Raw storage append `AuthenticationEvent.objects.create(...)`, which
raises `DatabaseError` when the table is unavailable. -/
def authenticationEvent_objects_create (store : Store) (e : AuthEvent) :
    Except DatabaseError Store :=
  if store.failed then
    Except.error DatabaseError.databaseError
  else
    Except.ok { store with events := e :: store.events }

/-- Function `_record_event` from `accounts/views.py`: append one audit event, swallowing
`DatabaseError` (the attempt is logged and the function returns normally).
The `user_agent[:255]` truncation is applied here. -/
def record_event (store : Store) (e : AuthEvent) : Store :=
  match authenticationEvent_objects_create store
      { e with user_agent := e.user_agent.take 255 } with
  | Except.ok store1 => store1
  | Except.error _ => store

/-- Function `_is_rate_limited` from `accounts/views.py`: count events of the given type
from the given IP with `created_at ≥ now - window` (optionally filtered by
`successful`) and compare against the limit; on `DatabaseError` fail open
(return `false`). -/
def is_rate_limited (store : Store) (now : Int) (event_type : EventType)
    (ip_address : Str) (window : Int) (limit : Nat)
    (successFilter : Option Bool) : Bool :=
  if store.failed then
    false
  else
    limit ≤ (matchingEvents store.events event_type ip_address (now - window) successFilter).length

/-- Function `_get_rate_limit_reset_time` from `accounts/views.py`: `created_at + window`
of the oldest event still inside the window, `none` if the queryset is empty or
the storage layer raises. -/
def get_rate_limit_reset_time (store : Store) (now : Int) (event_type : EventType)
    (ip_address : Str) (window : Int) (successFilter : Option Bool) : Option Int :=
  if store.failed then
    none
  else
    match oldestCreatedAt (matchingEvents store.events event_type ip_address (now - window) successFilter) with
    | none => none
    | some m => some (m + window)

/-!
SHA-256 (`hashlib.sha256`), modelled over lists of byte values with 32-bit
words as `Nat` reduced modulo `2 ^ 32`.
-/

/-- Reduce to a 32-bit word. -/
def w32 (x : Nat) : Nat :=
  x % 4294967296

/-- 32-bit right rotation. -/
def rotr32 (n x : Nat) : Nat :=
  w32 ((x >>> n) ||| (x <<< (32 - n)))

/-- SHA-256 round constants. -/
def sha256K : List Nat :=
  [1116352408, 1899447441, 3049323471, 3921009573, 961987163,
   1508970993, 2453635748, 2870763221, 3624381080, 310598401,
   607225278, 1426881987, 1925078388, 2162078206, 2614888103,
   3248222580, 3835390401, 4022224774, 264347078, 604807628,
   770255983, 1249150122, 1555081692, 1996064986, 2554220882,
   2821834349, 2952996808, 3210313671, 3336571891, 3584528711,
   113926993, 338241895, 666307205, 773529912, 1294757372,
   1396182291, 1695183700, 1986661051, 2177026350, 2456956037,
   2730485921, 2820302411, 3259730800, 3345764771, 3516065817,
   3600352804, 4094571909, 275423344, 430227734, 506948616,
   659060556, 883997877, 958139571, 1322822218, 1537002063,
   1747873779, 1955562222, 2024104815, 2227730452, 2361852424,
   2428436474, 2756734187, 3204031479, 3329325298]

/-- The eight 32-bit working variables of the SHA-256 compression function. -/
structure Sha256State where
  a : Nat
  b : Nat
  c : Nat
  d : Nat
  e : Nat
  f : Nat
  g : Nat
  h : Nat
deriving DecidableEq, Repr

/-- SHA-256 initial hash value. -/
def sha256Init : Sha256State :=
  ⟨1779033703, 3144134277, 1013904242, 2773480762, 1359893119, 2600822924, 528734635, 1541459225⟩

/-- Big-endian 32-bit word from four bytes. -/
def wordBE (b0 b1 b2 b3 : Nat) : Nat :=
  b0 * 16777216 + b1 * 65536 + b2 * 256 + b3

/-- Big-endian serialisation of a 32-bit word into four bytes. -/
def wordToBytesBE (x : Nat) : List Nat :=
  [x / 16777216 % 256, x / 65536 % 256, x / 256 % 256, x % 256]

/-- Message-schedule function σ₀. -/
def sigma0 (x : Nat) : Nat :=
  rotr32 7 x ^^^ rotr32 18 x ^^^ (x >>> 3)

/-- Message-schedule function σ₁. -/
def sigma1 (x : Nat) : Nat :=
  rotr32 17 x ^^^ rotr32 19 x ^^^ (x >>> 10)

/-- Compression function Σ₀. -/
def bigSigma0 (x : Nat) : Nat :=
  rotr32 2 x ^^^ rotr32 13 x ^^^ rotr32 22 x

/-- Compression function Σ₁. -/
def bigSigma1 (x : Nat) : Nat :=
  rotr32 6 x ^^^ rotr32 11 x ^^^ rotr32 25 x

/-- Extend a 16-word message schedule by `n` further words. -/
def extendSchedule : Nat → List Nat → List Nat
  | 0, acc => acc
  | n + 1, acc =>
    let i := acc.length
    let w := w32 (sigma1 (acc.getD (i - 2) 0) + acc.getD (i - 7) 0 +
      sigma0 (acc.getD (i - 15) 0) + acc.getD (i - 16) 0)
    extendSchedule n (acc ++ [w])

/-- One round of the SHA-256 compression function. -/
def sha256Round (st : Sha256State) (wk : Nat × Nat) : Sha256State :=
  let t1 := w32 (st.h + bigSigma1 st.e + ((st.e &&& st.f) ^^^ ((2 ^ 32 - 1 - st.e) &&& st.g)) + wk.2 + wk.1)
  let t2 := w32 (bigSigma0 st.a + ((st.a &&& st.b) ^^^ (st.a &&& st.c) ^^^ (st.b &&& st.c)))
  ⟨w32 (t1 + t2), st.a, st.b, st.c, w32 (st.d + t1), st.e, st.f, st.g⟩

/-- Process one 64-byte block. -/
def sha256Block (st : Sha256State) (block : List Nat) : Sha256State :=
  let ws0 := (List.range 16).map fun i =>
    wordBE (block.getD (4 * i) 0) (block.getD (4 * i + 1) 0)
      (block.getD (4 * i + 2) 0) (block.getD (4 * i + 3) 0)
  let ws := extendSchedule 48 ws0
  let t := (ws.zip sha256K).foldl sha256Round st
  ⟨w32 (st.a + t.a), w32 (st.b + t.b), w32 (st.c + t.c), w32 (st.d + t.d),
   w32 (st.e + t.e), w32 (st.f + t.f), w32 (st.g + t.g), w32 (st.h + t.h)⟩

/-- SHA-256 padding: append `0x80`, zeros to 56 mod 64, then the bit length as
an 8-byte big-endian integer. -/
def sha256Pad (msg : List Nat) : List Nat :=
  let ml := msg.length
  let zeros := (64 + 56 - (ml + 1) % 64) % 64
  let bitLen := ml * 8
  msg ++ [128] ++ List.replicate zeros 0 ++
    [bitLen / 2 ^ 56 % 256, bitLen / 2 ^ 48 % 256, bitLen / 2 ^ 40 % 256,
     bitLen / 2 ^ 32 % 256, bitLen / 2 ^ 24 % 256, bitLen / 2 ^ 16 % 256,
     bitLen / 256 % 256, bitLen % 256]

/-- Split into successive 64-byte blocks, given the number of blocks. -/
def toBlocksAux : Nat → List Nat → List (List Nat)
  | 0, _ => []
  | n + 1, l => l.take 64 :: toBlocksAux n (l.drop 64)

/-- Split a padded message into its 64-byte blocks. -/
def toBlocks (l : List Nat) : List (List Nat) :=
  toBlocksAux (l.length / 64) l

/-- SHA-256 of a byte sequence, as 32 output bytes. -/
def sha256 (msg : List Nat) : List Nat :=
  let fin := (toBlocks (sha256Pad msg)).foldl sha256Block sha256Init
  wordToBytesBE fin.a ++ wordToBytesBE fin.b ++ wordToBytesBE fin.c ++ wordToBytesBE fin.d ++
    wordToBytesBE fin.e ++ wordToBytesBE fin.f ++ wordToBytesBE fin.g ++ wordToBytesBE fin.h

/-- The sixteen lowercase hexadecimal digit code points `0123456789abcdef`. -/
def hexDigits : Str :=
  strBytes "0123456789abcdef"

/-- Two lowercase hex digits of one byte. -/
def byteToHex (b : Nat) : Str :=
  [hexDigits.getD (b / 16 % 16) 48, hexDigits.getD (b % 16) 48]

/-- Python `hexdigest()`: lowercase hex rendering of a byte sequence. -/
def bytesToHex (l : List Nat) : Str :=
  (l.map byteToHex).flatten

/-- Function `generate_email_digest` from `accounts/encryption.py`: normalise the email
with `email.lower().strip()`, UTF-8 encode (identity on the ASCII code-point
model) and return the SHA-256 hex digest. -/
def generate_email_digest (email : Str) : Str :=
  bytesToHex (sha256 (pyStrip (pyLower email)))

/-!
The custom `User` model of `accounts/models.py` (the fields and methods the
authentication core reads and writes), and the `LoginForm` of
`accounts/forms.py`.  Here `check_password` is the pluggable Django
password-verification primitive (a black box per the spec); it is modelled as
comparison with the stored credential.
-/

/-- The security-relevant fields of the custom `User` model.  `password` stands
for the stored password hash; `User_check_password` models the Django
`check_password` primitive against it. -/
structure User where
  id : Nat
  username : Str
  email_digest : Option Str
  password : Str
  failed_login_attempts : Nat
  locked_until : Option Int
  last_failed_login_at : Option Int
deriving DecidableEq, Repr

/-- Model of the pluggable Django `User.check_password` verification primitive. -/
def User_check_password (u : User) (candidate : Str) : Bool :=
  u.password == candidate

/-- Method `User.mark_login_failure`: increment `failed_login_attempts`, set
`last_failed_login_at = now`, save. -/
def User_mark_login_failure (u : User) (now : Int) : User :=
  { u with
    failed_login_attempts := u.failed_login_attempts + 1,
    last_failed_login_at := some now }

/-- Method `User.reset_login_failures`: zero the counter, clear `locked_until` and
`last_failed_login_at`, save. -/
def User_reset_login_failures (u : User) : User :=
  { u with
    failed_login_attempts := 0,
    locked_until := none,
    last_failed_login_at := none }

/-- Method `User.lock_for(duration)`: set `locked_until = timezone.now() + duration`,
save. -/
def User_lock_for (u : User) (now duration : Int) : User :=
  { u with locked_until := some (now + duration) }

/-- Method `User.is_locked`: `bool(self.locked_until and self.locked_until > timezone.now())`. -/
def User_is_locked (u : User) (now : Int) : Bool :=
  match u.locked_until with
  | none => false
  | some t => now < t

/-- Lookup `User.objects.filter(username__iexact=ident).first()`: case-insensitive
username lookup. -/
def usersFindByUsername (users : List User) (ident : Str) : Option User :=
  users.find? fun u => pyLower u.username == pyLower ident

/-- Lookup `User.objects.filter(email_digest=digest).first()`. -/
def usersFindByDigest (users : List User) (digest : Str) : Option User :=
  users.find? fun u => u.email_digest == some digest

/-- Persisting `Model.save()` on a mutated user: replace the row with the same primary key. -/
def saveUser (users : List User) (u : User) : List User :=
  users.map fun v => if v.id == u.id then u else v

/-- Lookup in the style of `User.objects.get(pk=id)`, for reading the persisted row back. -/
def usersFindById (users : List User) (id : Nat) : Option User :=
  users.find? fun u => u.id == id

/-- Validation `LoginForm.is_valid()`: both `CharField`s are required; `identifier` is
stripped by `clean_identifier` (Django `CharField(strip=True)` also strips
before the required check). -/
def loginForm_is_valid (identifier password : Str) : Bool :=
  !(pyStrip identifier).isEmpty && !(pyStrip password).isEmpty

/-- Method `LoginForm.find_user`: `none` when the form is invalid; otherwise look up
by `email_digest` when the cleaned identifier contains `@` (code point 64),
else by case-insensitive username. -/
def loginForm_find_user (users : List User) (identifier password : Str) : Option User :=
  if loginForm_is_valid identifier password then
    let ident := pyStrip identifier
    if ident.contains 64 then
      usersFindByDigest users (generate_email_digest ident)
    else
      usersFindByUsername users ident
  else
    none

/-!
The login and signup views of `accounts/views.py`, as functions from explicit
request data and database state to the rendered result plus the successor
database state.
-/

/-- The user-visible outcome of a login request: the `alert_message` and
`lockout_seconds` render-context entries and whether the request redirected to
the menu (successful authentication). -/
structure LoginResult where
  alert_message : Str
  lockout_seconds : Option Int
  redirected : Bool
deriving DecidableEq, Repr

/-- Full effect of one `login_view` request: the visible result, the event
store, the user table, and the session (`login(request, user)`). -/
structure LoginOutcome where
  result : LoginResult
  store : Store
  users : List User
  sessionUser : Option Nat
deriving DecidableEq, Repr

/-- The rate-limit check performed by `login_view` (login events from this IP,
failures only, 15-minute window, limit 5). -/
def loginRateLimitCheck (store : Store) (now : Int) (ip_address : Str) : Bool :=
  is_rate_limited store now EventType.login ip_address LOGIN_RATE_WINDOW
    LOGIN_RATE_LIMIT (some false)

/-- The reset-time computation performed by `login_view` when rate limited. -/
def loginRateLimitResetTime (store : Store) (now : Int) (ip_address : Str) : Option Int :=
  get_rate_limit_reset_time store now EventType.login ip_address LOGIN_RATE_WINDOW (some false)

/-- A login `AuthenticationEvent` as built by the `_record_event` calls in
`login_view` (email_submitted defaults to `""`). -/
def mkLoginEvent (ip_address user_agent identifier : Str) (user : Option Nat)
    (successful : Bool) (reason : Option Str) (now : Int) : AuthEvent :=
  { event_type := EventType.login,
    ip_address := ip_address,
    username_submitted := identifier,
    email_submitted := [],
    user := user,
    successful := successful,
    reason := reason,
    user_agent := user_agent,
    created_at := now }

/-- View `login_view` from `accounts/views.py`.  `isPost` distinguishes POST from
GET; `identifier` and `password` are the raw form fields; all `timezone.now()`
calls in the request observe `now`. -/
def login_view (store : Store) (users : List User) (now : Int) (isPost : Bool)
    (identifier password ip_address user_agent : Str) : LoginOutcome :=
  let is_ip_rate_limited := loginRateLimitCheck store now ip_address
  let lockout0 : Option Int :=
    if is_ip_rate_limited then
      match loginRateLimitResetTime store now ip_address with
      | some reset_time => some (max 1 (reset_time - now))
      | none => none
    else none
  let alert0 : Str :=
    if is_ip_rate_limited then
      strBytes "Too many sign-in attempts. Please wait before trying again."
    else []
  if isPost && !is_ip_rate_limited then
    if loginForm_is_valid identifier password then
      let ident := pyStrip identifier
      match loginForm_find_user users identifier password with
      | some user =>
        if User_is_locked user now then
          let secs : Int :=
            match user.locked_until with
            | some t => max 1 (t - now)
            | none => 3600
          { result :=
              { alert_message := strBytes "Your account is locked. Please wait before trying again.",
                lockout_seconds := some secs,
                redirected := false },
            store := record_event store
              (mkLoginEvent ip_address user_agent ident (some user.id) false
                (some (strBytes "account_locked")) now),
            users := users,
            sessionUser := none }
        else if !User_check_password user (pyStrip password) then
          let user1 := User_mark_login_failure user now
          if LOGIN_LOCK_THRESHOLD ≤ user1.failed_login_attempts then
            let user2 := User_lock_for user1 now LOGIN_LOCK_DURATION
            let user3 := { user2 with failed_login_attempts := 0 }
            let secs : Option Int :=
              match user3.locked_until with
              | some t => some (max 1 (t - now))
              | none => lockout0
            { result :=
                { alert_message := strBytes "Too many failed attempts. Your account is locked. Please wait before trying again.",
                  lockout_seconds := secs,
                  redirected := false },
              store := record_event store
                (mkLoginEvent ip_address user_agent ident (some user3.id) false
                  (some (strBytes "account_locked")) now),
              users := saveUser users user3,
              sessionUser := none }
          else
            { result :=
                { alert_message := strBytes "Invalid username or password.",
                  lockout_seconds := lockout0,
                  redirected := false },
              store := record_event store
                (mkLoginEvent ip_address user_agent ident (some user1.id) false
                  (some (strBytes "password_mismatch")) now),
              users := saveUser users user1,
              sessionUser := none }
        else
          let user1 := User_reset_login_failures user
          { result :=
              { alert_message := alert0,
                lockout_seconds := lockout0,
                redirected := true },
            store := record_event store
              (mkLoginEvent ip_address user_agent ident (some user1.id) true none now),
            users := saveUser users user1,
            sessionUser := some user1.id }
      | none =>
        { result :=
            { alert_message := strBytes "Invalid username or password.",
              lockout_seconds := lockout0,
              redirected := false },
          store := record_event store
            (mkLoginEvent ip_address user_agent ident none false
              (some (strBytes "unknown_identifier")) now),
          users := users,
          sessionUser := none }
    else
      { result :=
          { alert_message := strBytes "Enter your username/email and password to continue.",
            lockout_seconds := lockout0,
            redirected := false },
        store := store,
        users := users,
        sessionUser := none }
  else
    { result :=
        { alert_message := alert0,
          lockout_seconds := lockout0,
          redirected := false },
      store := store,
      users := users,
      sessionUser := none }

/-- Effect of one `signup_view` request. -/
structure SignupOutcome where
  lockout_seconds : Option Int
  rateLimitFormError : Bool
  redirected : Bool
  store : Store
  users : List User
  sessionUser : Option Nat
deriving DecidableEq, Repr

/-- The rate-limit check performed by `signup_view` (signup events from this
IP, all outcomes, 1-hour window, limit 5: no `successful` filter). -/
def signupRateLimitCheck (store : Store) (now : Int) (ip_address : Str) : Bool :=
  is_rate_limited store now EventType.signup ip_address SIGNUP_RATE_WINDOW
    SIGNUP_RATE_LIMIT none

/-- The reset-time computation performed by `signup_view` when rate limited. -/
def signupRateLimitResetTime (store : Store) (now : Int) (ip_address : Str) : Option Int :=
  get_rate_limit_reset_time store now EventType.signup ip_address SIGNUP_RATE_WINDOW none

/-- Creation `User.objects.create_user` as invoked by `SignupForm.save`: a fresh row
with the email digest computed and the lockout state at its zero value. -/
def create_user (newId : Nat) (username email password : Str) : User :=
  { id := newId,
    username := username,
    email_digest := some (generate_email_digest email),
    password := password,
    failed_login_attempts := 0,
    locked_until := none,
    last_failed_login_at := none }

/-- View `signup_view` from `accounts/views.py`.  `SignupForm` validation (username
pattern and uniqueness, email uniqueness via digest, password strength) is
delegated to a validation collaborator outside the core per the spec, so its
verdict enters as the boolean `formValid`; `username` and `email` are the
submitted form fields and `newId` the primary key the database assigns on
creation. -/
def signup_view (store : Store) (users : List User) (now : Int) (isPost : Bool)
    (formValid : Bool) (username email password ip_address user_agent : Str)
    (newId : Nat) : SignupOutcome :=
  let is_ip_rate_limited := signupRateLimitCheck store now ip_address
  let lockout0 : Option Int :=
    if is_ip_rate_limited then
      match signupRateLimitResetTime store now ip_address with
      | some reset_time => some (max 1 (reset_time - now))
      | none => none
    else none
  if isPost && !is_ip_rate_limited then
    if formValid then
      let user := create_user newId (pyStrip username) (pyLower (pyStrip email)) password
      { lockout_seconds := lockout0,
        rateLimitFormError := is_ip_rate_limited,
        redirected := true,
        store := record_event store
          { event_type := EventType.signup,
            ip_address := ip_address,
            username_submitted := user.username,
            email_submitted := pyLower (pyStrip email),
            user := some user.id,
            successful := true,
            reason := none,
            user_agent := user_agent,
            created_at := now },
        users := users ++ [user],
        sessionUser := some user.id }
    else
      { lockout_seconds := lockout0,
        rateLimitFormError := is_ip_rate_limited,
        redirected := false,
        store := record_event store
          { event_type := EventType.signup,
            ip_address := ip_address,
            username_submitted := username,
            email_submitted := email,
            user := none,
            successful := false,
            reason := some (strBytes "validation_error"),
            user_agent := user_agent,
            created_at := now },
        users := users,
        sessionUser := none }
  else
    { lockout_seconds := lockout0,
      rateLimitFormError := is_ip_rate_limited,
      redirected := false,
      store := store,
      users := users,
      sessionUser := none }

/-!
Concrete fixtures used to instantiate theorems on closed inputs.
-/

/-- A concrete client IP. -/
def wIp : Str := strBytes "203.0.113.9"

/-- A concrete failed login event from `wIp` at time 950. -/
def wFailEvent : AuthEvent :=
  { event_type := EventType.login,
    ip_address := wIp,
    username_submitted := strBytes "alice",
    email_submitted := [],
    user := none,
    successful := false,
    reason := none,
    user_agent := [],
    created_at := 950 }

/-- Event store holding five failed login events from `wIp` inside the window
around time 1000. -/
def wStoreLimited : Store := ⟨List.replicate 5 wFailEvent, false⟩

/-- An empty, healthy event store. -/
def wEmptyStore : Store := ⟨[], false⟩

/-- An event store whose storage layer raises `DatabaseError`. -/
def wFailedStore : Store := ⟨[], true⟩

/-- A concrete user with four recorded failures and no lock. -/
def wAlice : User :=
  { id := 1,
    username := strBytes "alice",
    email_digest := none,
    password := strBytes "correct-horse",
    failed_login_attempts := 4,
    locked_until := none,
    last_failed_login_at := none }

/-!
Helper lemmas shared by the claim theorems.
-/

theorem record_event_ok (store : Store) (e : AuthEvent) (h : store.failed = false) :
    record_event store e =
      { store with events := { e with user_agent := e.user_agent.take 255 } :: store.events } := by
  simp [record_event, authenticationEvent_objects_create, h]

theorem record_event_failed_store (store : Store) (e : AuthEvent) (h : store.failed = true) :
    record_event store e = store := by
  simp [record_event, authenticationEvent_objects_create, h]

theorem oldestCreatedAt_eq_none (l : List AuthEvent) :
    oldestCreatedAt l = none ↔ l = [] := by
  cases l with
  | nil => simp [oldestCreatedAt]
  | cons e es => cases h2 : oldestCreatedAt es <;> simp [oldestCreatedAt, h2]

theorem oldestCreatedAt_spec (l : List AuthEvent) (m : Int) (h : oldestCreatedAt l = some m) :
    (∃ e ∈ l, e.created_at = m) ∧ ∀ e ∈ l, m ≤ e.created_at := by
  induction l generalizing m with
  | nil => simp [oldestCreatedAt] at h
  | cons e es ih =>
    cases h2 : oldestCreatedAt es with
    | none =>
      have hes : es = [] := (oldestCreatedAt_eq_none es).mp h2
      rw [oldestCreatedAt, h2] at h
      subst hes
      simp at h
      subst h
      simp
    | some m2 =>
      rw [oldestCreatedAt, h2] at h
      simp at h
      obtain ⟨⟨e2, he2, he2m⟩, hle⟩ := ih m2 h2
      constructor
      · rcases min_cases e.created_at m2 with ⟨hmin, _⟩ | ⟨hmin, _⟩
        · exact ⟨e, by simp, by omega⟩
        · exact ⟨e2, by simp [he2], by omega⟩
      · intro e3 he3
        rcases List.mem_cons.mp he3 with rfl | he3
        · have := min_le_left e3.created_at m2
          omega
        · have := hle e3 he3
          have := min_le_right e.created_at m2
          omega

theorem matchingEvents_sub (events : List AuthEvent) (t : EventType) (ip : Str)
    (cutoff : Int) (f : Option Bool) :
    ∀ e ∈ matchingEvents events t ip cutoff f, e ∈ events := by
  intro e he
  exact (List.mem_filter.mp he).1

theorem matchingEvents_cutoff (events : List AuthEvent) (t : EventType) (ip : Str)
    (cutoff : Int) (f : Option Bool) :
    ∀ e ∈ matchingEvents events t ip cutoff f, cutoff ≤ e.created_at := by
  intro e he
  have h := (List.mem_filter.mp he).2
  simp only [matchingEvents, Bool.and_eq_true, decide_eq_true_eq] at h
  exact h.1.2

theorem loginRateLimitCheck_not_failed (store : Store) (now : Int) (ip : Str)
    (hlim : loginRateLimitCheck store now ip = true) :
    store.failed = false := by
  cases hf : store.failed
  · rfl
  · simp [loginRateLimitCheck, is_rate_limited, hf] at hlim

theorem loginRateLimitCheck_matching (store : Store) (now : Int) (ip : Str)
    (hlim : loginRateLimitCheck store now ip = true) :
    LOGIN_RATE_LIMIT ≤ (matchingEvents store.events EventType.login ip
      (now - LOGIN_RATE_WINDOW) (some false)).length := by
  have hf := loginRateLimitCheck_not_failed store now ip hlim
  simpa [loginRateLimitCheck, is_rate_limited, hf] using hlim

theorem loginRateLimitResetTime_of_limited (store : Store) (now : Int) (ip : Str)
    (hlim : loginRateLimitCheck store now ip = true) :
    ∃ m, loginRateLimitResetTime store now ip = some (m + LOGIN_RATE_WINDOW) ∧
      now - LOGIN_RATE_WINDOW ≤ m ∧ ∃ e ∈ store.events, e.created_at = m := by
  have hf := loginRateLimitCheck_not_failed store now ip hlim
  have hlen := loginRateLimitCheck_matching store now ip hlim
  set l := matchingEvents store.events EventType.login ip (now - LOGIN_RATE_WINDOW) (some false) with hl
  have hne : l ≠ [] := by
    intro hnil
    rw [hnil] at hlen
    simp [LOGIN_RATE_LIMIT] at hlen
  obtain ⟨m, hm⟩ : ∃ m, oldestCreatedAt l = some m := by
    cases ho : oldestCreatedAt l with
    | none => exact absurd ((oldestCreatedAt_eq_none l).mp ho) hne
    | some m => exact ⟨m, rfl⟩
  obtain ⟨⟨e, hel, hem⟩, _⟩ := oldestCreatedAt_spec l m hm
  refine ⟨m, ?_, ?_, e, matchingEvents_sub _ _ _ _ _ e hel, hem⟩
  · simp [loginRateLimitResetTime, get_rate_limit_reset_time, hf, ← hl, hm]
  · have := matchingEvents_cutoff store.events EventType.login ip (now - LOGIN_RATE_WINDOW) (some false) e hel
    omega

theorem loginForm_find_user_valid (users : List User) (identifier password : Str) (u : User)
    (h : loginForm_find_user users identifier password = some u) :
    loginForm_is_valid identifier password = true := by
  unfold loginForm_find_user at h
  split at h
  · assumption
  · exact absurd h (by simp)

theorem saveUser_mem (users : List User) (u v : User) (h : v ∈ saveUser users u) :
    v = u ∨ v ∈ users := by
  simp only [saveUser, List.mem_map] at h
  obtain ⟨w, hw, heq⟩ := h
  split at heq
  · exact Or.inl heq.symm
  · exact Or.inr (heq ▸ hw)

theorem login_view_rate_limited (store : Store) (users : List User) (now : Int)
    (isPost : Bool) (identifier password ip ua : Str)
    (hlim : loginRateLimitCheck store now ip = true) :
    login_view store users now isPost identifier password ip ua =
      { result :=
          { alert_message := strBytes "Too many sign-in attempts. Please wait before trying again.",
            lockout_seconds :=
              match loginRateLimitResetTime store now ip with
              | some reset_time => some (max 1 (reset_time - now))
              | none => none,
            redirected := false },
        store := store,
        users := users,
        sessionUser := none } := by
  simp [login_view, hlim]

theorem login_view_get (store : Store) (users : List User) (now : Int)
    (identifier password ip ua : Str)
    (hlim : loginRateLimitCheck store now ip = false) :
    login_view store users now false identifier password ip ua =
      { result := { alert_message := [], lockout_seconds := none, redirected := false },
        store := store,
        users := users,
        sessionUser := none } := by
  simp [login_view, hlim]

theorem login_view_invalid_form (store : Store) (users : List User) (now : Int)
    (identifier password ip ua : Str)
    (hlim : loginRateLimitCheck store now ip = false)
    (hv : loginForm_is_valid identifier password = false) :
    login_view store users now true identifier password ip ua =
      { result :=
          { alert_message := strBytes "Enter your username/email and password to continue.",
            lockout_seconds := none,
            redirected := false },
        store := store,
        users := users,
        sessionUser := none } := by
  simp [login_view, hlim, hv]

theorem login_view_unknown (store : Store) (users : List User) (now : Int)
    (identifier password ip ua : Str)
    (hlim : loginRateLimitCheck store now ip = false)
    (hv : loginForm_is_valid identifier password = true)
    (hfind : loginForm_find_user users identifier password = none) :
    login_view store users now true identifier password ip ua =
      { result :=
          { alert_message := strBytes "Invalid username or password.",
            lockout_seconds := none,
            redirected := false },
        store := record_event store
          (mkLoginEvent ip ua (pyStrip identifier) none false
            (some (strBytes "unknown_identifier")) now),
        users := users,
        sessionUser := none } := by
  simp [login_view, hlim, hv, hfind]

theorem login_view_locked (store : Store) (users : List User) (now : Int)
    (identifier password ip ua : Str) (u : User)
    (hlim : loginRateLimitCheck store now ip = false)
    (hfind : loginForm_find_user users identifier password = some u)
    (hl : User_is_locked u now = true) :
    login_view store users now true identifier password ip ua =
      { result :=
          { alert_message := strBytes "Your account is locked. Please wait before trying again.",
            lockout_seconds := some
              (match u.locked_until with
               | some t => max 1 (t - now)
               | none => 3600),
            redirected := false },
        store := record_event store
          (mkLoginEvent ip ua (pyStrip identifier) (some u.id) false
            (some (strBytes "account_locked")) now),
        users := users,
        sessionUser := none } := by
  have hv := loginForm_find_user_valid users identifier password u hfind
  simp [login_view, hlim, hv, hfind, hl]

theorem login_view_wrong_password_below (store : Store) (users : List User) (now : Int)
    (identifier password ip ua : Str) (u : User)
    (hlim : loginRateLimitCheck store now ip = false)
    (hfind : loginForm_find_user users identifier password = some u)
    (hnl : User_is_locked u now = false)
    (hpw : User_check_password u (pyStrip password) = false)
    (hth : u.failed_login_attempts + 1 < LOGIN_LOCK_THRESHOLD) :
    login_view store users now true identifier password ip ua =
      { result :=
          { alert_message := strBytes "Invalid username or password.",
            lockout_seconds := none,
            redirected := false },
        store := record_event store
          (mkLoginEvent ip ua (pyStrip identifier) (some u.id) false
            (some (strBytes "password_mismatch")) now),
        users := saveUser users (User_mark_login_failure u now),
        sessionUser := none } := by
  have hv := loginForm_find_user_valid users identifier password u hfind
  have hth2 : ¬ LOGIN_LOCK_THRESHOLD ≤ u.failed_login_attempts + 1 := by omega
  simp [login_view, hlim, hv, hfind, hnl, hpw, hth2, User_mark_login_failure]

theorem login_view_lock_now (store : Store) (users : List User) (now : Int)
    (identifier password ip ua : Str) (u : User)
    (hlim : loginRateLimitCheck store now ip = false)
    (hfind : loginForm_find_user users identifier password = some u)
    (hnl : User_is_locked u now = false)
    (hpw : User_check_password u (pyStrip password) = false)
    (hth : LOGIN_LOCK_THRESHOLD ≤ u.failed_login_attempts + 1) :
    login_view store users now true identifier password ip ua =
      { result :=
          { alert_message := strBytes "Too many failed attempts. Your account is locked. Please wait before trying again.",
            lockout_seconds := some LOGIN_LOCK_DURATION,
            redirected := false },
        store := record_event store
          (mkLoginEvent ip ua (pyStrip identifier) (some u.id) false
            (some (strBytes "account_locked")) now),
        users := saveUser users
          { u with
            failed_login_attempts := 0,
            locked_until := some (now + LOGIN_LOCK_DURATION),
            last_failed_login_at := some now },
        sessionUser := none } := by
  have hv := loginForm_find_user_valid users identifier password u hfind
  have hmax : max (1 : Int) LOGIN_LOCK_DURATION = LOGIN_LOCK_DURATION := by
    norm_num [LOGIN_LOCK_DURATION]
  simp [login_view, hlim, hv, hfind, hnl, hpw, hth, User_lock_for, User_mark_login_failure, hmax]

theorem login_view_success (store : Store) (users : List User) (now : Int)
    (identifier password ip ua : Str) (u : User)
    (hlim : loginRateLimitCheck store now ip = false)
    (hfind : loginForm_find_user users identifier password = some u)
    (hnl : User_is_locked u now = false)
    (hpw : User_check_password u (pyStrip password) = true) :
    login_view store users now true identifier password ip ua =
      { result := { alert_message := [], lockout_seconds := none, redirected := true },
        store := record_event store
          (mkLoginEvent ip ua (pyStrip identifier) (some u.id) true none now),
        users := saveUser users (User_reset_login_failures u),
        sessionUser := some u.id } := by
  have hv := loginForm_find_user_valid users identifier password u hfind
  simp [login_view, hlim, hv, hfind, hnl, hpw, User_reset_login_failures]

theorem login_view_events_count (store : Store) (users : List User) (now : Int)
    (isPost : Bool) (identifier password ip ua : Str)
    (hs : store.failed = false) :
    (login_view store users now isPost identifier password ip ua).store.events.length =
      store.events.length +
        (if isPost = true ∧ loginRateLimitCheck store now ip = false ∧
            loginForm_is_valid identifier password = true then 1 else 0) := by
  by_cases hp : isPost = true
  · by_cases hl : loginRateLimitCheck store now ip = true
    · subst hp
      rw [login_view_rate_limited store users now true identifier password ip ua hl]
      simp [hl]
    · have hl2 : loginRateLimitCheck store now ip = false := by
        simpa using hl
      by_cases hv : loginForm_is_valid identifier password = true
      · subst hp
        cases hfind : loginForm_find_user users identifier password with
        | none =>
          rw [login_view_unknown store users now identifier password ip ua hl2 hv hfind,
            record_event_ok _ _ hs]
          simp [hl2, hv]
        | some u =>
          by_cases hlk : User_is_locked u now = true
          · rw [login_view_locked store users now identifier password ip ua u hl2 hfind hlk,
              record_event_ok _ _ hs]
            simp [hl2, hv]
          · have hlk2 : User_is_locked u now = false := by simpa using hlk
            by_cases hpw : User_check_password u (pyStrip password) = true
            · rw [login_view_success store users now identifier password ip ua u hl2 hfind hlk2 hpw,
                record_event_ok _ _ hs]
              simp [hl2, hv]
            · have hpw2 : User_check_password u (pyStrip password) = false := by simpa using hpw
              by_cases hth : LOGIN_LOCK_THRESHOLD ≤ u.failed_login_attempts + 1
              · rw [login_view_lock_now store users now identifier password ip ua u hl2 hfind
                  hlk2 hpw2 hth, record_event_ok _ _ hs]
                simp [hl2, hv]
              · have hth2 : u.failed_login_attempts + 1 < LOGIN_LOCK_THRESHOLD := by omega
                rw [login_view_wrong_password_below store users now identifier password ip ua u
                  hl2 hfind hlk2 hpw2 hth2, record_event_ok _ _ hs]
                simp [hl2, hv]
      · have hv2 : loginForm_is_valid identifier password = false := by simpa using hv
        subst hp
        rw [login_view_invalid_form store users now identifier password ip ua hl2 hv2]
        simp [hv2]
  · have hp2 : isPost = false := by simpa using hp
    subst hp2
    simp [login_view]

theorem signup_view_events_count (store : Store) (users : List User) (now : Int)
    (isPost formValid : Bool) (username email password ip ua : Str) (newId : Nat)
    (hs : store.failed = false) :
    (signup_view store users now isPost formValid username email password ip ua newId).store.events.length =
      store.events.length +
        (if isPost = true ∧ signupRateLimitCheck store now ip = false then 1 else 0) := by
  by_cases hp : isPost = true
  · by_cases hl : signupRateLimitCheck store now ip = true
    · subst hp
      simp [signup_view, hl]
    · have hl2 : signupRateLimitCheck store now ip = false := by simpa using hl
      subst hp
      by_cases hfv : formValid = true
      · simp [signup_view, hl2, hfv, record_event_ok _ _ hs]
      · have hfv2 : formValid = false := by simpa using hfv
        simp [signup_view, hl2, hfv2, record_event_ok _ _ hs]
  · have hp2 : isPost = false := by simpa using hp
    subst hp2
    simp [signup_view]

/-!
Claim theorems.
-/

/-- C1 counterexample: the claim says every login attempt produces exactly one
authentication event, "including attempts rejected as IP-rate-limited".  On a
store holding five failed login events from `wIp` inside the window, a login
POST from `wIp` is IP-rate-limited, yet `login_view` records no event at all:
the event count stays 5 instead of becoming 6. -/
theorem c1_event_per_attempt_counterexample :
    loginRateLimitCheck wStoreLimited 1000 wIp = true ∧
    (login_view wStoreLimited [wAlice] 1000 true (strBytes "alice")
      (strBytes "badpassword") wIp []).store.events.length = 5 ∧
    ¬ (login_view wStoreLimited [wAlice] 1000 true (strBytes "alice")
      (strBytes "badpassword") wIp []).store.events.length = 5 + 1 := by
  refine ⟨by decide, by decide, by decide⟩

/-- C1 (amended): when the event store is healthy, a login POST writes exactly
one event when it is not IP-rate-limited and its form input is valid, and no
event otherwise (rate-limited login attempts and invalid login form input are
not logged); a signup POST writes exactly one event when it is not
IP-rate-limited (including invalid signup input, logged as validation_error)
and none when rate-limited; GET requests write none. -/
theorem c1_event_per_attempt_amended (store : Store) (users : List User) (now : Int)
    (isPost formValid : Bool) (identifier password username email spassword ip ua : Str)
    (newId : Nat) (hs : store.failed = false) :
    (login_view store users now isPost identifier password ip ua).store.events.length =
      store.events.length +
        (if isPost = true ∧ loginRateLimitCheck store now ip = false ∧
            loginForm_is_valid identifier password = true then 1 else 0) ∧
    (signup_view store users now isPost formValid username email spassword ip ua newId).store.events.length =
      store.events.length +
        (if isPost = true ∧ signupRateLimitCheck store now ip = false then 1 else 0) :=
  ⟨login_view_events_count store users now isPost identifier password ip ua hs,
   signup_view_events_count store users now isPost formValid username email spassword ip ua newId hs⟩

/-- C1 witness: the amended theorem applied at concrete inputs — a valid,
unthrottled login POST and an invalid, unthrottled signup POST each write
exactly one event to an empty healthy store. -/
theorem c1_event_per_attempt_amended_witness :
    wEmptyStore.failed = false ∧
    (login_view wEmptyStore [wAlice] 1000 true (strBytes "alice") (strBytes "badpassword")
        wIp []).store.events.length =
      wEmptyStore.events.length +
        (if (true : Bool) = true ∧ loginRateLimitCheck wEmptyStore 1000 wIp = false ∧
            loginForm_is_valid (strBytes "alice") (strBytes "badpassword") = true then 1 else 0) ∧
    (signup_view wEmptyStore [] 1000 true false (strBytes "bob") (strBytes "bob@example.com")
        (strBytes "pw") wIp [] 7).store.events.length =
      wEmptyStore.events.length +
        (if (true : Bool) = true ∧ signupRateLimitCheck wEmptyStore 1000 wIp = false then 1 else 0) :=
  ⟨rfl,
   c1_event_per_attempt_amended wEmptyStore [wAlice] 1000 true false (strBytes "alice")
     (strBytes "badpassword") (strBytes "bob") (strBytes "bob@example.com") (strBytes "pw")
     wIp [] 7 rfl⟩

/-- C2: on the wrong-password attempt that brings `failed_login_attempts` from
4 to the threshold 5, the account is locked until `now + 3600` seconds
(60 minutes), the counter is written back as 0 in the same request, and the
reason recorded on the audit event is `account_locked`, not `password_mismatch`. -/
theorem c2_fifth_failure_locks (store : Store) (users : List User) (now : Int)
    (identifier password ip ua : Str) (u : User)
    (hlim : loginRateLimitCheck store now ip = false)
    (hfind : loginForm_find_user users identifier password = some u)
    (hnl : User_is_locked u now = false)
    (hpw : User_check_password u (pyStrip password) = false)
    (hfa : u.failed_login_attempts = 4)
    (hs : store.failed = false) :
    (login_view store users now true identifier password ip ua).users =
      saveUser users
        { u with
          failed_login_attempts := 0,
          locked_until := some (now + LOGIN_LOCK_DURATION),
          last_failed_login_at := some now } ∧
    (∃ ev, (login_view store users now true identifier password ip ua).store.events =
        ev :: store.events ∧
      ev.reason = some (strBytes "account_locked") ∧
      ev.reason ≠ some (strBytes "password_mismatch") ∧
      ev.successful = false) ∧
    (login_view store users now true identifier password ip ua).result.lockout_seconds =
      some LOGIN_LOCK_DURATION := by
  have hth : LOGIN_LOCK_THRESHOLD ≤ u.failed_login_attempts + 1 := by
    simp [LOGIN_LOCK_THRESHOLD, hfa]
  rw [login_view_lock_now store users now identifier password ip ua u hlim hfind hnl hpw hth,
    record_event_ok _ _ hs]
  exact ⟨rfl, ⟨_, rfl, rfl, by simp only [mkLoginEvent]; decide, rfl⟩, rfl⟩

/-- C2 witness: the theorem applied to `wAlice` (four recorded failures, not
locked) submitting a wrong password at time 1000. -/
theorem c2_fifth_failure_locks_witness :
    loginForm_find_user [wAlice] (strBytes "alice") (strBytes "badpassword") = some wAlice ∧
    wAlice.failed_login_attempts = 4 ∧
    ((login_view wEmptyStore [wAlice] 1000 true (strBytes "alice") (strBytes "badpassword")
        wIp []).users =
      saveUser [wAlice]
        { wAlice with
          failed_login_attempts := 0,
          locked_until := some (1000 + LOGIN_LOCK_DURATION),
          last_failed_login_at := some 1000 } ∧
    (∃ ev, (login_view wEmptyStore [wAlice] 1000 true (strBytes "alice") (strBytes "badpassword")
        wIp []).store.events = ev :: wEmptyStore.events ∧
      ev.reason = some (strBytes "account_locked") ∧
      ev.reason ≠ some (strBytes "password_mismatch") ∧
      ev.successful = false) ∧
    (login_view wEmptyStore [wAlice] 1000 true (strBytes "alice") (strBytes "badpassword")
        wIp []).result.lockout_seconds = some LOGIN_LOCK_DURATION) :=
  ⟨by decide, rfl,
   c2_fifth_failure_locks wEmptyStore [wAlice] 1000 (strBytes "alice") (strBytes "badpassword")
     wIp [] wAlice (by decide) (by decide) (by decide) (by decide) rfl rfl⟩

/-- C3: a login POST from an IP at or over the login rate limit is decided as
throttled — the throttle message plus a countdown of at least one second —
before any account resolution: the user table, event store and session are
untouched, and the visible result is identical whatever users table,
identifier or password the request carries. -/
theorem c3_throttle_precedes_account_resolution (store : Store) (now : Int) (ip : Str)
    (users users₂ : List User) (identifier identifier₂ password password₂ ua ua₂ : Str)
    (hlim : loginRateLimitCheck store now ip = true) :
    (login_view store users now true identifier password ip ua).result =
      (login_view store users₂ now true identifier₂ password₂ ip ua₂).result ∧
    (login_view store users now true identifier password ip ua).users = users ∧
    (login_view store users now true identifier password ip ua).store = store ∧
    (login_view store users now true identifier password ip ua).sessionUser = none ∧
    (login_view store users now true identifier password ip ua).result.alert_message =
      strBytes "Too many sign-in attempts. Please wait before trying again." ∧
    ∃ s, (login_view store users now true identifier password ip ua).result.lockout_seconds =
        some s ∧ 1 ≤ s := by
  rw [login_view_rate_limited store users now true identifier password ip ua hlim,
    login_view_rate_limited store users₂ now true identifier₂ password₂ ip ua₂ hlim]
  obtain ⟨m, hm, _, _⟩ := loginRateLimitResetTime_of_limited store now ip hlim
  refine ⟨rfl, rfl, rfl, rfl, rfl, ?_⟩
  rw [hm]
  exact ⟨max 1 (m + LOGIN_RATE_WINDOW - now), rfl, le_max_left _ _⟩

/-- C3 witness: the theorem applied to the five-failures store at time 1000,
with two different users tables, identifiers and passwords. -/
theorem c3_throttle_precedes_account_resolution_witness :
    loginRateLimitCheck wStoreLimited 1000 wIp = true ∧
    ((login_view wStoreLimited [wAlice] 1000 true (strBytes "alice") (strBytes "pw1")
        wIp []).result =
      (login_view wStoreLimited [] 1000 true (strBytes "someone-else") (strBytes "pw2")
        wIp (strBytes "agent")).result ∧
    (login_view wStoreLimited [wAlice] 1000 true (strBytes "alice") (strBytes "pw1")
        wIp []).users = [wAlice] ∧
    (login_view wStoreLimited [wAlice] 1000 true (strBytes "alice") (strBytes "pw1")
        wIp []).store = wStoreLimited ∧
    (login_view wStoreLimited [wAlice] 1000 true (strBytes "alice") (strBytes "pw1")
        wIp []).sessionUser = none ∧
    (login_view wStoreLimited [wAlice] 1000 true (strBytes "alice") (strBytes "pw1")
        wIp []).result.alert_message =
      strBytes "Too many sign-in attempts. Please wait before trying again." ∧
    ∃ s, (login_view wStoreLimited [wAlice] 1000 true (strBytes "alice") (strBytes "pw1")
        wIp []).result.lockout_seconds = some s ∧ 1 ≤ s) :=
  ⟨by decide,
   c3_throttle_precedes_account_resolution wStoreLimited 1000 wIp [wAlice] []
     (strBytes "alice") (strBytes "someone-else") (strBytes "pw1") (strBytes "pw2")
     [] (strBytes "agent") (by decide)⟩

/-- C4: the rate limiter reports limited exactly when the count of matching
events with `created_at ≥ now - window` reaches the limit; the login policy
counts failures only — five failed login events from an IP inside the
15-minute window trip it, the same five events marked successful do not
(indeed successful events never count, however many) — while the signup
policy counts five events from the IP regardless of success. -/
theorem c4_rate_limit_counting :
    (∀ (store : Store) (now : Int) (t : EventType) (ip : Str) (w : Int) (l : Nat)
        (f : Option Bool), store.failed = false →
      (is_rate_limited store now t ip w l f = true ↔
        l ≤ (matchingEvents store.events t ip (now - w) f).length)) ∧
    (∀ (now : Int) (ip : Str) (evs : List AuthEvent), evs.length = 5 →
      (∀ e ∈ evs, e.event_type = EventType.login ∧ e.ip_address = ip ∧
        now - LOGIN_RATE_WINDOW ≤ e.created_at ∧ e.successful = false) →
      loginRateLimitCheck ⟨evs, false⟩ now ip = true) ∧
    (∀ (now : Int) (ip : Str) (evs : List AuthEvent),
      (∀ e ∈ evs, e.successful = true) →
      loginRateLimitCheck ⟨evs, false⟩ now ip = false) ∧
    (∀ (now : Int) (ip : Str) (evs : List AuthEvent), evs.length = 5 →
      (∀ e ∈ evs, e.event_type = EventType.signup ∧ e.ip_address = ip ∧
        now - SIGNUP_RATE_WINDOW ≤ e.created_at) →
      signupRateLimitCheck ⟨evs, false⟩ now ip = true) := by
  refine ⟨?_, ?_, ?_, ?_⟩
  · intro store now t ip w l f hs
    simp [is_rate_limited, hs]
  · intro now ip evs hlen hall
    have hfull : matchingEvents evs EventType.login ip (now - LOGIN_RATE_WINDOW) (some false) = evs := by
      apply List.filter_eq_self.mpr
      intro e he
      obtain ⟨h1, h2, h3, h4⟩ := hall e he
      simp [matchesSuccessFilter, h1, h2, h3, h4]
    simp [loginRateLimitCheck, is_rate_limited, hfull, hlen, LOGIN_RATE_LIMIT]
  · intro now ip evs hall
    have hempty : matchingEvents evs EventType.login ip (now - LOGIN_RATE_WINDOW) (some false) = [] := by
      apply List.filter_eq_nil_iff.mpr
      intro e he
      simp [matchesSuccessFilter, hall e he]
    simp [loginRateLimitCheck, is_rate_limited, hempty, LOGIN_RATE_LIMIT]
  · intro now ip evs hlen hall
    have hfull : matchingEvents evs EventType.signup ip (now - SIGNUP_RATE_WINDOW) none = evs := by
      apply List.filter_eq_self.mpr
      intro e he
      obtain ⟨h1, h2, h3⟩ := hall e he
      simp [matchesSuccessFilter, h1, h2, h3]
    simp [signupRateLimitCheck, is_rate_limited, hfull, hlen, SIGNUP_RATE_LIMIT]

/-- C4 witness: part two of the theorem applied to five concrete failed login
events from `wIp` at time 950, observed at time 1000. -/
theorem c4_rate_limit_counting_witness :
    (List.replicate 5 wFailEvent).length = 5 ∧
    loginRateLimitCheck ⟨List.replicate 5 wFailEvent, false⟩ 1000 wIp = true :=
  ⟨by decide,
   c4_rate_limit_counting.2.1 1000 wIp (List.replicate 5 wFailEvent) (by decide) (by decide)⟩

/-- C5: a storage failure never blocks or aborts an authentication decision —
on a store whose backend raises `DatabaseError`, `is_rate_limited` returns
`false` (fail open), and `record_event` catches the error the raw create
raises and returns normally with the store unchanged. -/
theorem c5_storage_failure_swallowed (store : Store) (e : AuthEvent) (now : Int)
    (t : EventType) (ip : Str) (w : Int) (l : Nat) (f : Option Bool)
    (hfail : store.failed = true) :
    is_rate_limited store now t ip w l f = false ∧
    authenticationEvent_objects_create store e = Except.error DatabaseError.databaseError ∧
    record_event store e = store :=
  ⟨by simp [is_rate_limited, hfail],
   by simp [authenticationEvent_objects_create, hfail],
   record_event_failed_store store e hfail⟩

/-- C5 witness: the theorem applied to the concrete failing store. -/
theorem c5_storage_failure_swallowed_witness :
    wFailedStore.failed = true ∧
    (is_rate_limited wFailedStore 1000 EventType.login wIp LOGIN_RATE_WINDOW
        LOGIN_RATE_LIMIT (some false) = false ∧
    authenticationEvent_objects_create wFailedStore wFailEvent =
      Except.error DatabaseError.databaseError ∧
    record_event wFailedStore wFailEvent = wFailedStore) :=
  ⟨rfl,
   c5_storage_failure_swallowed wFailedStore wFailEvent 1000 EventType.login wIp
     LOGIN_RATE_WINDOW LOGIN_RATE_LIMIT (some false) rfl⟩

/-- C6: for a login POST the user-visible result for an unknown identifier is
identical to the result for a wrong password below the lock threshold — both
render the same invalid-credentials message, the same absent countdown and no
redirect, so the response does not reveal whether the account exists. -/
theorem c6_account_enumeration_resistance (store : Store) (users₁ users₂ : List User)
    (now : Int) (id₁ pw₁ id₂ pw₂ ip ua₁ ua₂ : Str) (u : User)
    (hlim : loginRateLimitCheck store now ip = false)
    (hv₁ : loginForm_is_valid id₁ pw₁ = true)
    (hn : loginForm_find_user users₁ id₁ pw₁ = none)
    (hf : loginForm_find_user users₂ id₂ pw₂ = some u)
    (hnl : User_is_locked u now = false)
    (hpw : User_check_password u (pyStrip pw₂) = false)
    (hth : u.failed_login_attempts + 1 < LOGIN_LOCK_THRESHOLD) :
    (login_view store users₁ now true id₁ pw₁ ip ua₁).result =
      (login_view store users₂ now true id₂ pw₂ ip ua₂).result ∧
    (login_view store users₁ now true id₁ pw₁ ip ua₁).result.alert_message =
      strBytes "Invalid username or password." := by
  rw [login_view_unknown store users₁ now id₁ pw₁ ip ua₁ hlim hv₁ hn,
    login_view_wrong_password_below store users₂ now id₂ pw₂ ip ua₂ u hlim hf hnl hpw hth]
  exact ⟨rfl, rfl⟩

/-- C6 witness: the theorem applied to an unknown identifier `nosuchuser`
against an empty users table versus a wrong password for `wAlice` (who has 3
prior failures, staying below the threshold). -/
theorem c6_account_enumeration_resistance_witness :
    loginForm_find_user [] (strBytes "nosuchuser") (strBytes "pw1") = none ∧
    loginForm_find_user [{ wAlice with failed_login_attempts := 3 }] (strBytes "alice")
      (strBytes "badpassword") = some { wAlice with failed_login_attempts := 3 } ∧
    ((login_view wEmptyStore [] 1000 true (strBytes "nosuchuser") (strBytes "pw1")
        wIp []).result =
      (login_view wEmptyStore [{ wAlice with failed_login_attempts := 3 }] 1000 true
        (strBytes "alice") (strBytes "badpassword") wIp (strBytes "agent")).result ∧
    (login_view wEmptyStore [] 1000 true (strBytes "nosuchuser") (strBytes "pw1")
        wIp []).result.alert_message = strBytes "Invalid username or password.") :=
  ⟨by decide, by decide,
   c6_account_enumeration_resistance wEmptyStore [] [{ wAlice with failed_login_attempts := 3 }]
     1000 (strBytes "nosuchuser") (strBytes "pw1") (strBytes "alice") (strBytes "badpassword")
     wIp [] (strBytes "agent") { wAlice with failed_login_attempts := 3 }
     (by decide) (by decide) (by decide) (by decide) (by decide) (by decide) (by decide)⟩

/-- C7: every countdown surfaced with a throttled or locked response is
clamped to `[1, window_or_lock_duration]`: when IP-throttled (and no stored
event is in the future) the countdown is between 1 second and the 15-minute
window; when rejecting a locked account whose `locked_until` lies within one
lock duration of now, it is between 1 second and the 60-minute duration; and
the response that locks the account shows exactly the 60-minute duration. -/
theorem c7_countdown_clamped (store : Store) (users : List User) (now : Int)
    (identifier password ip ua : Str) :
    (∀ isPost : Bool, loginRateLimitCheck store now ip = true →
      (∀ e ∈ store.events, e.created_at ≤ now) →
      ∃ s, (login_view store users now isPost identifier password ip ua).result.lockout_seconds =
          some s ∧ 1 ≤ s ∧ s ≤ LOGIN_RATE_WINDOW) ∧
    (∀ (u : User) (t : Int), loginRateLimitCheck store now ip = false →
      loginForm_find_user users identifier password = some u →
      u.locked_until = some t → now < t → t ≤ now + LOGIN_LOCK_DURATION →
      (login_view store users now true identifier password ip ua).result.lockout_seconds =
          some (t - now) ∧ 1 ≤ t - now ∧ t - now ≤ LOGIN_LOCK_DURATION) ∧
    (∀ u : User, loginRateLimitCheck store now ip = false →
      loginForm_find_user users identifier password = some u →
      User_is_locked u now = false →
      User_check_password u (pyStrip password) = false →
      LOGIN_LOCK_THRESHOLD ≤ u.failed_login_attempts + 1 →
      (login_view store users now true identifier password ip ua).result.lockout_seconds =
          some LOGIN_LOCK_DURATION ∧ (1 : Int) ≤ LOGIN_LOCK_DURATION) := by
  refine ⟨?_, ?_, ?_⟩
  · intro isPost hlim hts
    rw [login_view_rate_limited store users now isPost identifier password ip ua hlim]
    obtain ⟨m, hm, hcut, e, hee, hem⟩ := loginRateLimitResetTime_of_limited store now ip hlim
    have hmnow : m ≤ now := hem ▸ hts e hee
    refine ⟨max 1 (m + LOGIN_RATE_WINDOW - now), by rw [hm], le_max_left _ _, ?_⟩
    have h1 : (1 : Int) ≤ LOGIN_RATE_WINDOW := by norm_num [LOGIN_RATE_WINDOW]
    have h2 : m + LOGIN_RATE_WINDOW - now ≤ LOGIN_RATE_WINDOW := by omega
    exact max_le h1 h2
  · intro u t hlim hfind hlu hnow hdur
    have hl : User_is_locked u now = true := by
      simp [User_is_locked, hlu, hnow]
    rw [login_view_locked store users now identifier password ip ua u hlim hfind hl]
    have hmax : max (1 : Int) (t - now) = t - now := max_eq_right (by omega)
    refine ⟨?_, by omega, by omega⟩
    simp [hlu, hmax]
  · intro u hlim hfind hnl hpw hth
    rw [login_view_lock_now store users now identifier password ip ua u hlim hfind hnl hpw hth]
    exact ⟨rfl, by norm_num [LOGIN_LOCK_DURATION]⟩

/-- C7 witness: the throttled part of the theorem applied to the concrete
five-failures store (all events at time 950, observed at time 1000). -/
theorem c7_countdown_clamped_witness :
    loginRateLimitCheck wStoreLimited 1000 wIp = true ∧
    (∀ e ∈ wStoreLimited.events, e.created_at ≤ 1000) ∧
    ∃ s, (login_view wStoreLimited [wAlice] 1000 true (strBytes "alice") (strBytes "pw")
        wIp []).result.lockout_seconds = some s ∧ 1 ≤ s ∧ s ≤ LOGIN_RATE_WINDOW :=
  ⟨by decide, by decide,
   (c7_countdown_clamped wStoreLimited [wAlice] 1000 (strBytes "alice") (strBytes "pw")
     wIp []).1 true (by decide) (by decide)⟩

/-- C8: `is_locked` is true exactly when `locked_until` is set and strictly in
the future (expiry is just this comparison, with no background unlock); an
account with `locked_until = now - 300` (five minutes in the past) reports not
locked, and a correct-password login attempt on such an account succeeds,
resetting the lockout state. -/
theorem c8_lazy_lock_expiry :
    (∀ (u : User) (now : Int),
      User_is_locked u now = true ↔ ∃ t, u.locked_until = some t ∧ now < t) ∧
    (∀ (u : User) (now : Int),
      u.locked_until = some (now - 300) → User_is_locked u now = false) ∧
    (∀ (store : Store) (users : List User) (now : Int) (identifier password ip ua : Str)
        (u : User),
      loginRateLimitCheck store now ip = false →
      loginForm_find_user users identifier password = some u →
      u.locked_until = some (now - 300) →
      User_check_password u (pyStrip password) = true →
      store.failed = false →
      (login_view store users now true identifier password ip ua).result.redirected = true ∧
      (login_view store users now true identifier password ip ua).sessionUser = some u.id ∧
      (login_view store users now true identifier password ip ua).users =
        saveUser users (User_reset_login_failures u) ∧
      (User_reset_login_failures u).failed_login_attempts = 0 ∧
      (User_reset_login_failures u).locked_until = none ∧
      ∃ ev, (login_view store users now true identifier password ip ua).store.events =
          ev :: store.events ∧ ev.successful = true) := by
  refine ⟨?_, ?_, ?_⟩
  · intro u now
    cases hlu : u.locked_until with
    | none => simp [User_is_locked, hlu]
    | some t => simp [User_is_locked, hlu]
  · intro u now hlu
    simp [User_is_locked, hlu]
  · intro store users now identifier password ip ua u hlim hfind hlu hpw hs
    have hnl : User_is_locked u now = false := by
      simp [User_is_locked, hlu]
    rw [login_view_success store users now identifier password ip ua u hlim hfind hnl hpw,
      record_event_ok _ _ hs]
    exact ⟨rfl, rfl, rfl, rfl, rfl, _, rfl, rfl⟩

/-- C8 witness: the login-succeeds part of the theorem applied to `wAlice`
with an expired lock (`locked_until = 700` at time 1000) and her correct
password. -/
theorem c8_lazy_lock_expiry_witness :
    loginForm_find_user [{ wAlice with locked_until := some 700 }] (strBytes "alice")
      (strBytes "correct-horse") = some { wAlice with locked_until := some 700 } ∧
    ({ wAlice with locked_until := some 700 } : User).locked_until = some (1000 - 300) ∧
    ((login_view wEmptyStore [{ wAlice with locked_until := some 700 }] 1000 true
        (strBytes "alice") (strBytes "correct-horse") wIp []).result.redirected = true ∧
    (login_view wEmptyStore [{ wAlice with locked_until := some 700 }] 1000 true
        (strBytes "alice") (strBytes "correct-horse") wIp []).sessionUser =
      some ({ wAlice with locked_until := some 700 } : User).id ∧
    (login_view wEmptyStore [{ wAlice with locked_until := some 700 }] 1000 true
        (strBytes "alice") (strBytes "correct-horse") wIp []).users =
      saveUser [{ wAlice with locked_until := some 700 }]
        (User_reset_login_failures { wAlice with locked_until := some 700 }) ∧
    (User_reset_login_failures { wAlice with locked_until := some 700 }).failed_login_attempts = 0 ∧
    (User_reset_login_failures { wAlice with locked_until := some 700 }).locked_until = none ∧
    ∃ ev, (login_view wEmptyStore [{ wAlice with locked_until := some 700 }] 1000 true
        (strBytes "alice") (strBytes "correct-horse") wIp []).store.events =
        ev :: wEmptyStore.events ∧ ev.successful = true) :=
  ⟨by decide, by decide,
   c8_lazy_lock_expiry.2.2 wEmptyStore [{ wAlice with locked_until := some 700 }] 1000
     (strBytes "alice") (strBytes "correct-horse") wIp []
     { wAlice with locked_until := some 700 }
     (by decide) (by decide) (by decide) (by decide) rfl⟩

/-- C10: `mark_login_failure` increments the counter by exactly one,
`reset_login_failures` writes 0, and after any completed login request every
persisted `failed_login_attempts` is still at most 4 (the attempt that would
reach 5 locks the account and writes the counter back as 0 in the same
request, and a successful login writes 0), so a stored value of 5 or more is
never observable between attempts. -/
theorem c10_failed_attempts_bounded :
    (∀ (u : User) (now : Int),
      (User_mark_login_failure u now).failed_login_attempts = u.failed_login_attempts + 1) ∧
    (∀ u : User, (User_reset_login_failures u).failed_login_attempts = 0) ∧
    (∀ (store : Store) (users : List User) (now : Int) (isPost : Bool)
        (identifier password ip ua : Str),
      (∀ v ∈ users, v.failed_login_attempts ≤ 4) →
      ∀ v ∈ (login_view store users now isPost identifier password ip ua).users,
        v.failed_login_attempts ≤ 4) := by
  refine ⟨fun u now => rfl, fun u => rfl, ?_⟩
  intro store users now isPost identifier password ip ua h4 v hv
  cases isPost with
  | false =>
    by_cases hl : loginRateLimitCheck store now ip = true
    · rw [login_view_rate_limited store users now false identifier password ip ua hl] at hv
      exact h4 v hv
    · have hl2 : loginRateLimitCheck store now ip = false := by simpa using hl
      rw [login_view_get store users now identifier password ip ua hl2] at hv
      exact h4 v hv
  | true =>
    by_cases hl : loginRateLimitCheck store now ip = true
    · rw [login_view_rate_limited store users now true identifier password ip ua hl] at hv
      exact h4 v hv
    · have hl2 : loginRateLimitCheck store now ip = false := by simpa using hl
      by_cases hfv : loginForm_is_valid identifier password = true
      · cases hfind : loginForm_find_user users identifier password with
        | none =>
          rw [login_view_unknown store users now identifier password ip ua hl2 hfv hfind] at hv
          exact h4 v hv
        | some u =>
          by_cases hlk : User_is_locked u now = true
          · rw [login_view_locked store users now identifier password ip ua u hl2 hfind hlk] at hv
            exact h4 v hv
          · have hlk2 : User_is_locked u now = false := by simpa using hlk
            by_cases hpw : User_check_password u (pyStrip password) = true
            · rw [login_view_success store users now identifier password ip ua u
                hl2 hfind hlk2 hpw] at hv
              rcases saveUser_mem users _ v hv with rfl | hvm
              · simp [User_reset_login_failures]
              · exact h4 v hvm
            · have hpw2 : User_check_password u (pyStrip password) = false := by simpa using hpw
              by_cases hth : LOGIN_LOCK_THRESHOLD ≤ u.failed_login_attempts + 1
              · rw [login_view_lock_now store users now identifier password ip ua u
                  hl2 hfind hlk2 hpw2 hth] at hv
                rcases saveUser_mem users _ v hv with rfl | hvm
                · simp
                · exact h4 v hvm
              · have hth2 : u.failed_login_attempts + 1 < LOGIN_LOCK_THRESHOLD := by omega
                rw [login_view_wrong_password_below store users now identifier password ip ua u
                  hl2 hfind hlk2 hpw2 hth2] at hv
                rcases saveUser_mem users _ v hv with rfl | hvm
                · simp only [User_mark_login_failure, LOGIN_LOCK_THRESHOLD] at hth2 ⊢
                  omega
                · exact h4 v hvm
      · have hfv2 : loginForm_is_valid identifier password = false := by simpa using hfv
        rw [login_view_invalid_form store users now identifier password ip ua hl2 hfv2] at hv
        exact h4 v hv

/-- C10 witness: the invariant applied to a table holding `wAlice` at 4
failures, across the wrong-password request that locks her account. -/
theorem c10_failed_attempts_bounded_witness :
    (∀ v ∈ [wAlice], v.failed_login_attempts ≤ 4) ∧
    ∀ v ∈ (login_view wEmptyStore [wAlice] 1000 true (strBytes "alice")
        (strBytes "badpassword") wIp []).users, v.failed_login_attempts ≤ 4 :=
  ⟨by decide,
   c10_failed_attempts_bounded.2.2 wEmptyStore [wAlice] 1000 true (strBytes "alice")
     (strBytes "badpassword") wIp [] (by decide)⟩

theorem asciiLower_upperChar (c : Nat) :
    asciiLowerChar (asciiUpperChar c) = asciiLowerChar c := by
  by_cases h : 97 ≤ c ∧ c ≤ 122
  · have hu : asciiUpperChar c = c - 32 := by simp [asciiUpperChar, h]
    have h2 : 65 ≤ c - 32 ∧ c - 32 ≤ 90 := by omega
    have h3 : ¬ (65 ≤ c ∧ c ≤ 90) := by omega
    rw [hu]
    simp [asciiLowerChar, h2, h3]
    omega
  · have hu : asciiUpperChar c = c := by simp [asciiUpperChar, h]
    rw [hu]

theorem pyLower_map_asciiUpper (s : Str) :
    pyLower (s.map asciiUpperChar) = pyLower s := by
  induction s with
  | nil => rfl
  | cons c cs ih =>
    simp only [pyLower, List.map_cons] at ih ⊢
    exact List.cons_eq_cons.mpr ⟨asciiLower_upperChar c, ih⟩

theorem pyUpperChar_ascii (c : Nat) (h : c ≤ 127) : pyUpperChar c = [asciiUpperChar c] := by
  unfold pyUpperChar asciiUpperChar
  by_cases h1 : 97 ≤ c ∧ c ≤ 122
  · simp [h1]
  · have h2 : ¬ c = 223 := by omega
    have h3 : ¬ c = 181 := by omega
    simp [h1, h2, h3]

theorem pyUpper_ascii (s : Str) (h : ∀ c ∈ s, c ≤ 127) :
    pyUpper s = s.map asciiUpperChar := by
  induction s with
  | nil => rfl
  | cons c cs ih =>
    have hc : c ≤ 127 := h c (List.mem_cons_self c cs)
    have hcs : ∀ x ∈ cs, x ≤ 127 := fun x hx => h x (List.mem_cons_of_mem c hx)
    simp only [pyUpper, List.map_cons, List.flatten_cons] at ih ⊢
    rw [pyUpperChar_ascii c hc, ih hcs]
    rfl

theorem sha256_length (msg : List Nat) : (sha256 msg).length = 32 := by
  simp [sha256, wordToBytesBE]

theorem bytesToHex_length (l : List Nat) : (bytesToHex l).length = 2 * l.length := by
  induction l with
  | nil => rfl
  | cons b bs ih =>
    have hsplit : bytesToHex (b :: bs) = byteToHex b ++ bytesToHex bs := by
      simp [bytesToHex]
    rw [hsplit, List.length_append, ih]
    have h2 : (byteToHex b).length = 2 := rfl
    rw [h2, List.length_cons]
    omega

theorem getD_mem_of_default_mem (l : List Nat) (n d : Nat) (hd : d ∈ l) : l.getD n d ∈ l := by
  rw [List.getD_eq_getElem?_getD]
  cases h : l[n]? with
  | none => simpa using hd
  | some x =>
    simp only [h, Option.getD_some]
    exact List.getElem?_mem h

theorem byteToHex_mem_hexDigits (b : Nat) : ∀ c ∈ byteToHex b, c ∈ hexDigits := by
  intro c hc
  have h48 : 48 ∈ hexDigits := by decide
  simp only [byteToHex, List.mem_cons, List.mem_singleton] at hc
  rcases hc with rfl | rfl | hfalse
  · exact getD_mem_of_default_mem hexDigits _ 48 h48
  · exact getD_mem_of_default_mem hexDigits _ 48 h48
  · exact absurd hfalse (List.not_mem_nil c)

theorem pyStrip_space_cons (s : Str) : pyStrip (32 :: s) = pyStrip s := by
  have h32 : isPySpace 32 = true := rfl
  simp [pyStrip, List.dropWhile_cons_of_pos h32]

theorem pyStrip_append_space (s : Str) : pyStrip (s ++ [32]) = pyStrip s := by
  unfold pyStrip
  rw [List.dropWhile_append]
  by_cases h : (s.dropWhile isPySpace).isEmpty
  · have hnil : s.dropWhile isPySpace = [] := List.isEmpty_iff.mp h
    have h32 : List.dropWhile isPySpace [32] = [] := rfl
    rw [if_pos h, h32, hnil]
  · rw [if_neg h, List.reverse_append]
    have h32 : isPySpace 32 = true := rfl
    simp [List.dropWhile_cons_of_pos h32]

set_option maxRecDepth 10000 in
theorem sha256_abc_vector : bytesToHex (sha256 (strBytes "abc")) =
    strBytes "ba7816bf8f01cfea414140de5dae2223b00361a396177a9cb410ff61f20015ad" := by
  decide

set_option maxRecDepth 10000 in
theorem generate_email_digest_docstring_example :
    generate_email_digest (strBytes "user@example.com") =
      strBytes "b4c9a289323b21a01c3e940f150eb9b8c542587f1abfd8f0e1cc1ffc5e475514" := by
  decide

set_option maxRecDepth 10000 in
/-- C9 counterexample: the claim quantifies over every email string, but
CPython uppercases ß (U+00DF) to SS, so for the email x@straße.de the
normalized form of the string (x@straße.de) differs from the normalized form
of its uppercase X@STRASSE.DE (namely x@strasse.de), and their SHA-256
digests differ: `generate_email_digest(e) = generate_email_digest(e.upper())`
fails at this input. -/
theorem c9_digest_counterexample :
    ¬ generate_email_digest (strBytes "x@straße.de") =
      generate_email_digest (pyUpper (strBytes "x@straße.de")) := by
  decide

/-- C9 (amended): the email digest is deterministic,
surrounding-whitespace-insensitive, and case-insensitive on ASCII emails —
for every email `e` all of whose code points are ASCII, the digest of `e`
equals the digest of `e.upper()` (for code points with expanding uppercase
mappings such as ß the equality fails, per the counterexample); for every
input the digest of `e` equals the digest of `e` with a space added before
and after, is a 64-character string of lowercase hex digits, and repeated
calls on the same input return the identical string. -/
theorem c9_digest_case_insensitive_64_hex (e : Str) :
    ((∀ c ∈ e, c ≤ 127) →
      generate_email_digest e = generate_email_digest (pyUpper e)) ∧
    generate_email_digest (32 :: (e ++ [32])) = generate_email_digest e ∧
    (generate_email_digest e).length = 64 ∧
    (∀ c ∈ generate_email_digest e, c ∈ hexDigits) ∧
    generate_email_digest e = generate_email_digest e := by
  refine ⟨?_, ?_, ?_, ?_, rfl⟩
  · intro hascii
    unfold generate_email_digest
    rw [pyUpper_ascii e hascii, pyLower_map_asciiUpper]
  · unfold generate_email_digest
    have h32 : asciiLowerChar 32 = 32 := rfl
    have hmap : pyLower (32 :: (e ++ [32])) = 32 :: (pyLower e ++ [32]) := by
      simp [pyLower, h32]
    rw [hmap, pyStrip_space_cons, pyStrip_append_space]
  · unfold generate_email_digest bytesToHex
    have hlen := sha256_length (pyStrip (pyLower e))
    calc ((sha256 (pyStrip (pyLower e))).map byteToHex).flatten.length
        = 2 * (sha256 (pyStrip (pyLower e))).length := bytesToHex_length _
      _ = 64 := by rw [hlen]
  · intro c hc
    unfold generate_email_digest bytesToHex at hc
    simp only [List.mem_flatten, List.mem_map] at hc
    obtain ⟨lst, ⟨b, _, rfl⟩, hcl⟩ := hc
    exact byteToHex_mem_hexDigits b c hcl

/-- C9 witness: the ASCII-restricted case-insensitivity applied to the
concrete email User@Example.com. -/
theorem c9_digest_case_insensitive_64_hex_witness :
    (∀ c ∈ strBytes "User@Example.com", c ≤ 127) ∧
    generate_email_digest (strBytes "User@Example.com") =
      generate_email_digest (pyUpper (strBytes "User@Example.com")) :=
  ⟨by decide,
   (c9_digest_case_insensitive_64_hex (strBytes "User@Example.com")).1 (by decide)⟩
